import Mathlib

/-!
Shallow embedding of the hue.rs discovery-and-protocol layer
(`src/bridge.rs`, `src/disco.rs`, `src/disco/mdns.rs`, `src/resource.rs`),
with theorems checking the natural-language design document against it.

External collaborators (the HTTP transport, the `dns_parser` and `serde_json`
crates, the UDP socket, the real-time deadline) are modelled at their
boundaries: a received datagram appears as the result of the DNS-packet
parse, an HTTP body appears as the decoded JSON value, and the receive
deadline appears as the finiteness of the list of datagrams received.
Rust `f32` fields are carried as `Rat` (no claim computes with them),
`u16`/`u32`/`usize` as `Nat`.
-/

/-- Modelled from the spec: the crate-root error taxonomy (`HueError` lives in
`lib.rs`, which is not among the sources). Constructors are reconstructed from
the uses in `bridge.rs` and `disco.rs` (`protocol_err`, `BridgeError`,
`BridgeErrorV2`, `DiscoveryError`, `MdnsError`) and from the design's error
kinds; `AddrParseError` models the `From` conversion applied by `?` to a
failed `IpAddr` parse; `Unreachable` models a Rust panic (`unwrap` on `None`),
which the source argues cannot happen. -/
inductive HueError where
  | ProtocolError (msg : String)
  | BridgeError (code : Nat) (msg : String)
  | BridgeErrorV2 (description : String)
  | DiscoveryError (msg : String)
  | MdnsError (msg : String)
  | AddrParseError (msg : String)
  | Unreachable (msg : String)
deriving DecidableEq, Repr

/-- `HueError::protocol_err` constructor function used by `bridge.rs`. -/
def HueError.protocol_err (msg : String) : HueError :=
  HueError.ProtocolError msg

/-- `BridgeErrorInner` from `bridge.rs` (fields `address`, `description`, `type`). -/
structure BridgeErrorInner where
  address : String
  description : String
  type : Nat
deriving DecidableEq, Repr

/-- `BridgeError` wrapper from `bridge.rs`: `{ error: BridgeErrorInner }`. -/
structure BridgeError where
  error : BridgeErrorInner
deriving DecidableEq, Repr

/-- The legacy (untagged) response envelope `BridgeResponse<T>` from `bridge.rs`. -/
inductive BridgeResponse (T : Type) where
  | Element (t : T)
  | List (ts : List T)
  | Errors (es : List BridgeError)
deriving DecidableEq, Repr

/-- `BridgeResponse::get` from `bridge.rs`. `Vec::pop` removes and returns the
last element, so the `List` branch yields the last element or the protocol
error, and the `Errors` branch surfaces the last error entry. The source
unwraps the pop in the `Errors` branch, arguing an empty list always
deserializes as the `List` case; the unreachable empty case is modelled by the
`Unreachable` error value. -/
def BridgeResponse.get {T : Type} : BridgeResponse T → Except HueError T
  | .Element t => .ok t
  | .List ts =>
      match ts.getLast? with
      | some t => .ok t
      | none => .error (HueError.protocol_err "expected non-empty array")
  | .Errors es =>
      match es.getLast? with
      | some e => .error (HueError.BridgeError e.error.type e.error.description)
      | none => .error (HueError.Unreachable "called Option::unwrap on a None value")

/-- `BridgeErrorV2` from `bridge.rs`: `{ description }`. -/
structure BridgeErrorV2 where
  description : String
deriving DecidableEq, Repr

/-- The current response envelope `BridgeResponseV2<T>` from `bridge.rs`:
always both an `errors` and a `data` field. -/
structure BridgeResponseV2 (T : Type) where
  errors : List BridgeErrorV2
  data : List T
deriving DecidableEq, Repr

/-- `BridgeResponseV2::get` from `bridge.rs`: `self.errors.pop()` takes the
last error entry if any; otherwise the whole `data` list is returned. -/
def BridgeResponseV2.get {T : Type} (self : BridgeResponseV2 T) : Except HueError (List T) :=
  match self.errors.getLast? with
  | some error => .error (HueError.BridgeErrorV2 error.description)
  | none => .ok self.data

/-- C1: legacy envelope `.get()`: an array with at least one success object
yields its last element; the empty array fails with the protocol error
"expected non-empty array"; an array of error entries surfaces exactly the
last entry's code and description. -/
theorem C1_bridge_response_get (T : Type) (ts : List T) (a : T)
    (es : List BridgeError) (e : BridgeError) :
    (BridgeResponse.List (ts ++ [a])).get = .ok a
    ∧ (BridgeResponse.List ([] : List T)).get
        = .error (HueError.ProtocolError "expected non-empty array")
    ∧ (BridgeResponse.Errors (es ++ [e]) : BridgeResponse T).get
        = .error (HueError.BridgeError e.error.type e.error.description) := by
  refine ⟨?_, rfl, ?_⟩ <;> simp [BridgeResponse.get, List.getLast?_concat]

/-- C2: current envelope `.get()`: a non-empty `errors` list wins over any
`data`, surfaced as the description of its last entry; with empty `errors`
the whole `data` list is returned, the empty list included. -/
theorem C2_bridge_response_v2_get (T : Type) (es : List BridgeErrorV2)
    (e : BridgeErrorV2) (data : List T) :
    (BridgeResponseV2.mk (es ++ [e]) data).get
        = .error (HueError.BridgeErrorV2 e.description)
    ∧ (BridgeResponseV2.mk [] data).get = .ok data
    ∧ (BridgeResponseV2.mk ([] : List BridgeErrorV2) ([] : List T)).get = .ok [] := by
  refine ⟨?_, rfl, rfl⟩
  simp [BridgeResponseV2.get, List.getLast?_concat]

/-- An IPv4 address as four octets (`std::net::Ipv4Addr` boundary). -/
structure Ipv4Addr where
  a : Nat
  b : Nat
  c : Nat
  d : Nat
deriving DecidableEq, Repr

/-- `std::net::IpAddr` boundary: V4 or V6. -/
inductive IpAddr where
  | V4 (addr : Ipv4Addr)
  | V6 (segments : List Nat)
deriving DecidableEq, Repr

/-- The `dns_parser::RData` record payloads distinguished by `validate_response`:
PTR and A; every other record type is collapsed into `Other`, which the source
treats uniformly (its `matches!`/`if let` arms reject them all). -/
inductive RData where
  | PTR (name : String)
  | A (addr : Ipv4Addr)
  | Other
deriving DecidableEq, Repr

/-- A parsed DNS resource record (the `dns_parser` boundary): the record name
as the string `Name::to_string` produces, and its payload. -/
structure ResourceRecord where
  name : String
  data : RData
deriving DecidableEq, Repr

/-- The DNS header fields read by the source: the transaction id. -/
structure DnsHeader where
  id : Nat
deriving DecidableEq, Repr

/-- A parsed DNS packet (the `dns_parser::Packet` boundary) restricted to the
sections `validate_response` reads: header, answers, additional records. -/
structure Packet where
  header : DnsHeader
  answers : List ResourceRecord
  additional : List ResourceRecord
deriving DecidableEq, Repr

/-- `validate_response` from `disco/mdns.rs`. Its first step,
`dns_parser::Packet::parse(bytes).ok()?`, is the external-parser boundary: the
argument `parsed` is that parse's result, `none` when the bytes are not a
valid DNS packet. The rest translates the source line by line, with the
source's local bindings `is_ptr_record`, `is_corresponding_answer_from_request`,
`has_right_answer` and `is_related_response` inlined at their single use
sites: a PTR answer whose name equals the requested service name must exist
and the header id must equal the query id, otherwise `None`; on a match the
address is the first A record of the additional section, if any. -/
def validate_response (parsed : Option Packet) (service_name : String)
    (dns_query_id : Nat) : Option IpAddr :=
  match parsed with
  | none => none
  | some packet =>
    if !((packet.header.id == dns_query_id) && packet.answers.any (fun answer =>
          (match answer.data with
           | RData.PTR _ => true
           | _ => false) && (answer.name == service_name))) then
      none
    else
      packet.additional.findSome? (fun resource_record =>
        match resource_record.data with
        | RData.A ip_addr_v4 => some (IpAddr.V4 ip_addr_v4)
        | _ => none)

/-- The receive loop of `discover_mdns_sd` from `disco/mdns.rs`. The socket
and the 3-second deadline are the I/O boundary: `datagrams` is the sequence
of datagrams received before the deadline (each already put through the
`dns_parser` boundary), and exhausting it models `timeout_at` firing, which
the source maps to a timed-out `MdnsError`. Each datagram is run through
`validate_response`; the first match ends the loop successfully. -/
def discover_mdns_sd (service_name : String) (dns_query_id : Nat) :
    List (Option Packet) → Except HueError IpAddr
  | [] => .error (HueError.MdnsError "mDNS response was not received on time")
  | d :: rest =>
    match validate_response d service_name dns_query_id with
    | some service_ip => .ok service_ip
    | none => discover_mdns_sd service_name dns_query_id rest

/-- Splitting lemma for `List.findSome?`: a successful search isolates the
first element the function accepts. -/
theorem findSome?_eq_some_split {α β : Type} (f : α → Option β) :
    ∀ (l : List α) (b : β), l.findSome? f = some b →
      ∃ pre x post, l = pre ++ x :: post ∧ f x = some b ∧ ∀ y ∈ pre, f y = none := by
  intro l
  induction l with
  | nil => intro b h; simp [List.findSome?] at h
  | cons x xs ih =>
    intro b h
    rw [List.findSome?_cons] at h
    cases hfx : f x with
    | some v =>
      rw [hfx] at h
      refine ⟨[], x, xs, by simp, ?_, by simp⟩
      simpa [hfx] using h
    | none =>
      rw [hfx] at h
      obtain ⟨pre, y, post, hl, hy, hpre⟩ := ih b h
      refine ⟨x :: pre, y, post, by simp [hl], hy, ?_⟩
      intro z hz
      rcases List.mem_cons.mp hz with hz | hz
      · simpa [hz] using hfx
      · exact hpre z hz

/-- C3: the mDNS response validator accepts only packets that parse, carry the
query's transaction id, and contain a PTR answer named like the queried
service; the accepted address is the first A record of the additional section;
unparseable datagrams and transaction-id mismatches yield `none` (no error)
whatever their records. -/
theorem C3_validate_response (service_name : String) (qid : Nat)
    (p : Packet) (ip : IpAddr) :
    validate_response none service_name qid = none
    ∧ (p.header.id ≠ qid → validate_response (some p) service_name qid = none)
    ∧ (validate_response (some p) service_name qid = some ip →
        p.header.id = qid
        ∧ (∃ ans ∈ p.answers, (∃ n, ans.data = RData.PTR n) ∧ ans.name = service_name)
        ∧ ∃ pre rec post a, p.additional = pre ++ rec :: post
            ∧ rec.data = RData.A a ∧ ip = IpAddr.V4 a
            ∧ ∀ r ∈ pre, ∀ b, r.data ≠ RData.A b) := by
  refine ⟨rfl, ?_, ?_⟩
  · intro hne
    simp [validate_response, hne]
  · intro hsome
    rw [show validate_response (some p) service_name qid
        = (if !((p.header.id == qid) && p.answers.any (fun answer =>
              (match answer.data with
               | RData.PTR _ => true
               | _ => false) && (answer.name == service_name))) then
            none
          else
            p.additional.findSome? (fun resource_record =>
              match resource_record.data with
              | RData.A ip_addr_v4 => some (IpAddr.V4 ip_addr_v4)
              | _ => none)) from rfl] at hsome
    split at hsome
    · exact absurd hsome (by simp)
    next hcond =>
      have hcond2 : (p.header.id == qid && p.answers.any fun answer =>
          (match answer.data with
            | RData.PTR _ => true
            | _ => false) && answer.name == service_name) = true := by
        simpa using hcond
      rw [Bool.and_eq_true] at hcond2
      obtain ⟨hid, hans⟩ := hcond2
      rw [List.any_eq_true] at hans
      obtain ⟨ans, hmem, hpred⟩ := hans
      rw [Bool.and_eq_true] at hpred
      obtain ⟨hptr, hname⟩ := hpred
      refine ⟨by simpa using hid, ⟨ans, hmem, ?_, by simpa using hname⟩, ?_⟩
      · cases h : ans.data with
        | PTR n => exact ⟨n, rfl⟩
        | A a => rw [h] at hptr; simp at hptr
        | Other => rw [h] at hptr; simp at hptr
      · obtain ⟨pre, x, post, hl, hx, hpre⟩ := findSome?_eq_some_split _ _ _ hsome
        cases hxd : x.data with
        | A a =>
          rw [hxd] at hx
          refine ⟨pre, x, post, a, hl, hxd, by simpa using hx.symm, ?_⟩
          intro r hr b hrb
          have := hpre r hr
          rw [hrb] at this
          simp at this
        | PTR n => rw [hxd] at hx; simp at hx
        | Other => rw [hxd] at hx; simp at hx

/-- Witness for C3 at a concrete accepted datagram. -/
theorem C3_validate_response_witness :
    validate_response
        (some (Packet.mk (DnsHeader.mk 7)
          [ResourceRecord.mk "_hue._tcp.local" (RData.PTR "bridge")]
          [ResourceRecord.mk "h" RData.Other,
           ResourceRecord.mk "h" (RData.A (Ipv4Addr.mk 192 168 1 2))]))
        "_hue._tcp.local" 7
      = some (IpAddr.V4 (Ipv4Addr.mk 192 168 1 2))
    ∧ ((Packet.mk (DnsHeader.mk 7)
          [ResourceRecord.mk "_hue._tcp.local" (RData.PTR "bridge")]
          [ResourceRecord.mk "h" RData.Other,
           ResourceRecord.mk "h" (RData.A (Ipv4Addr.mk 192 168 1 2))]).header.id = 7
        ∧ (∃ ans ∈ (Packet.mk (DnsHeader.mk 7)
            [ResourceRecord.mk "_hue._tcp.local" (RData.PTR "bridge")]
            [ResourceRecord.mk "h" RData.Other,
             ResourceRecord.mk "h" (RData.A (Ipv4Addr.mk 192 168 1 2))]).answers,
            (∃ n, ans.data = RData.PTR n) ∧ ans.name = "_hue._tcp.local")
        ∧ ∃ pre rec post a,
            (Packet.mk (DnsHeader.mk 7)
              [ResourceRecord.mk "_hue._tcp.local" (RData.PTR "bridge")]
              [ResourceRecord.mk "h" RData.Other,
               ResourceRecord.mk "h" (RData.A (Ipv4Addr.mk 192 168 1 2))]).additional
              = pre ++ rec :: post
            ∧ rec.data = RData.A a ∧ IpAddr.V4 (Ipv4Addr.mk 192 168 1 2) = IpAddr.V4 a
            ∧ ∀ r ∈ pre, ∀ b, r.data ≠ RData.A b) :=
  ⟨by decide,
   (C3_validate_response "_hue._tcp.local" 7
      (Packet.mk (DnsHeader.mk 7)
        [ResourceRecord.mk "_hue._tcp.local" (RData.PTR "bridge")]
        [ResourceRecord.mk "h" RData.Other,
         ResourceRecord.mk "h" (RData.A (Ipv4Addr.mk 192 168 1 2))])
      (IpAddr.V4 (Ipv4Addr.mk 192 168 1 2))).2.2 (by decide)⟩

/-- `List.findSome?` returns `none` when the function accepts no element. -/
theorem findSome?_eq_none_of_all {α β : Type} (f : α → Option β) :
    ∀ l : List α, (∀ x ∈ l, f x = none) → l.findSome? f = none := by
  intro l
  induction l with
  | nil => intro _; rfl
  | cons x xs ih =>
    intro h
    rw [List.findSome?_cons, h x (by simp)]
    exact ih (fun y hy => h y (by simp [hy]))

/-- C10: a datagram with the right transaction id and a matching PTR answer
but no A record in its additional section validates to `none`, so the receive
loop passes over it and keeps waiting for further datagrams instead of
succeeding or erroring. -/
theorem C10_no_a_record_keeps_waiting (service_name : String) (qid : Nat)
    (p : Packet) (rest : List (Option Packet))
    (_hid : p.header.id = qid)
    (_hptr : ∃ ans ∈ p.answers, (∃ n, ans.data = RData.PTR n) ∧ ans.name = service_name)
    (hnoA : ∀ rr ∈ p.additional, ∀ a, rr.data ≠ RData.A a) :
    validate_response (some p) service_name qid = none
    ∧ discover_mdns_sd service_name qid (some p :: rest)
        = discover_mdns_sd service_name qid rest := by
  have hval : validate_response (some p) service_name qid = none := by
    rw [show validate_response (some p) service_name qid
        = (if !((p.header.id == qid) && p.answers.any (fun answer =>
              (match answer.data with
               | RData.PTR _ => true
               | _ => false) && (answer.name == service_name))) then
            none
          else
            p.additional.findSome? (fun resource_record =>
              match resource_record.data with
              | RData.A ip_addr_v4 => some (IpAddr.V4 ip_addr_v4)
              | _ => none)) from rfl]
    split
    · rfl
    · apply findSome?_eq_none_of_all
      intro rr hrr
      cases hd : rr.data with
      | A a => exact absurd hd (hnoA rr hrr a)
      | PTR n => simp
      | Other => simp
  refine ⟨hval, ?_⟩
  rw [show discover_mdns_sd service_name qid (some p :: rest)
      = (match validate_response (some p) service_name qid with
         | some service_ip => .ok service_ip
         | none => discover_mdns_sd service_name qid rest) from rfl, hval]

/-- Witness for C10: a related response whose additional section holds no A
record; with no further datagrams, the loop times out exactly as it does
without that datagram. -/
theorem C10_no_a_record_keeps_waiting_witness :
    validate_response
        (some (Packet.mk (DnsHeader.mk 4343)
          [ResourceRecord.mk "_hue._tcp.local" (RData.PTR "bridge")]
          [ResourceRecord.mk "h" RData.Other])) "_hue._tcp.local" 4343 = none
    ∧ discover_mdns_sd "_hue._tcp.local" 4343
        (some (Packet.mk (DnsHeader.mk 4343)
          [ResourceRecord.mk "_hue._tcp.local" (RData.PTR "bridge")]
          [ResourceRecord.mk "h" RData.Other]) :: [])
      = discover_mdns_sd "_hue._tcp.local" 4343 [] :=
  C10_no_a_record_keeps_waiting "_hue._tcp.local" 4343
    (Packet.mk (DnsHeader.mk 4343)
      [ResourceRecord.mk "_hue._tcp.local" (RData.PTR "bridge")]
      [ResourceRecord.mk "h" RData.Other]) []
    rfl
    ⟨ResourceRecord.mk "_hue._tcp.local" (RData.PTR "bridge"), by decide,
      ⟨"bridge", rfl⟩, rfl⟩
    (by
      intro rr hrr a
      rw [List.mem_singleton] at hrr
      subst hrr
      simp)

/-- `discover_hue_bridge` from `disco.rs`. The two awaited sub-discoveries
run strictly in sequence; their completed results enter here as values
(`mdns_result` from `discover_hue_bridge_m_dns`, `n_upnp_result` from
`discover_hue_bridge_n_upnp`, the latter consulted only in the error branch,
mirroring that the source only awaits it after an mDNS failure). The two
underlying errors are bound only by the discarded log statements; the
`Err(DiscoveryError)?` conversion applied by `?` is the identity. -/
def discover_hue_bridge (mdns_result : Except HueError IpAddr)
    (n_upnp_result : Except HueError IpAddr) : Except HueError IpAddr :=
  match mdns_result with
  | .ok bridge_ip => .ok bridge_ip
  | .error _mdns_error =>
    match n_upnp_result with
    | .ok bridge_ip => .ok bridge_ip
    | .error _nupnp_error => .error (HueError.DiscoveryError "Could not discover bridge")

/-- C4: the coordinator takes the mDNS result when it succeeded; on an mDNS
failure a nUPnP success becomes the overall result; when both fail the result
is one fixed discovery error, the same value for every pair of underlying
errors, so neither sub-error and no distinction between them reaches the
caller. -/
theorem C4_discover_hue_bridge (ip ip2 : IpAddr)
    (r : Except HueError IpAddr) (e1 e2 e1' e2' : HueError) :
    discover_hue_bridge (.ok ip) r = .ok ip
    ∧ discover_hue_bridge (.error e1) (.ok ip2) = .ok ip2
    ∧ discover_hue_bridge (.error e1) (.error e2)
        = .error (HueError.DiscoveryError "Could not discover bridge")
    ∧ discover_hue_bridge (.error e1) (.error e2)
        = discover_hue_bridge (.error e1') (.error e2') :=
  ⟨rfl, rfl, rfl, rfl⟩

/-- A JSON value (the `serde_json::Value` boundary); numbers are carried as
rationals, objects as key-value lists with distinct keys. -/
inductive JValue where
  | null
  | bool (b : Bool)
  | num (q : Rat)
  | str (s : String)
  | arr (xs : List JValue)
  | obj (fields : List (String × JValue))

/-- Key lookup in a decoded JSON object or an indexed collection
(the `serde_json::Map::get` / `HashMap::get` boundary; keys are distinct,
so first match is the match). -/
def mapGet {α : Type} : List (String × α) → String → Option α
  | [], _ => none
  | (k, v) :: rest, key => if k = key then some v else mapGet rest key

/-- `Value::as_str` from the `serde_json` boundary. -/
def JValue.as_str : JValue → Option String
  | .str s => some s
  | _ => none

/-- `discover_hue_bridge_n_upnp` from `disco.rs`. The HTTPS GET and the serde
decode to `Vec<Map<String, Value>>` are the transport boundary: `objects` is
the decoded body. `parse_ip` is the `str::parse::<IpAddr>` boundary of the
standard library; the `?` conversion of its `AddrParseError` is modelled by
`HueError.AddrParseError`. -/
def discover_hue_bridge_n_upnp (parse_ip : String → Option IpAddr)
    (objects : List (List (String × JValue))) : Except HueError IpAddr :=
  match objects with
  | [] => .error (HueError.DiscoveryError "expected non-empty array")
  | object :: _ =>
    match mapGet object "internalipaddress" with
    | none => .error (HueError.DiscoveryError "Expected internalipaddress")
    | some ip =>
      match ip.as_str with
      | none => .error (HueError.DiscoveryError "expect a string in internalipaddress")
      | some s =>
        match parse_ip s with
        | some addr => .ok addr
        | none => .error (HueError.AddrParseError s)

/-- Whether a result is the `ProtocolError` kind of the error taxonomy. -/
def isProtocolError {α : Type} : Except HueError α → Bool
  | .error (HueError.ProtocolError _) => true
  | _ => false

/-- C5 counterexample: on the empty JSON array the nUPnP discoverer fails
with the discovery-error kind carrying "expected non-empty array", not with
the protocol-error kind the claim names. -/
theorem C5_counterexample_empty_array_kind :
    discover_hue_bridge_n_upnp (fun _ => none) []
        = .error (HueError.DiscoveryError "expected non-empty array")
    ∧ isProtocolError (discover_hue_bridge_n_upnp (fun _ => none) []) = false :=
  ⟨rfl, rfl⟩

/-- C5 (amended): the nUPnP discoverer fails with a discovery error
"expected non-empty array" on an empty JSON array; it reads only the first
array element; it fails when that element lacks `internalipaddress`, or when
that field is not a string, or when the string does not parse as an IP
address; and when the field is a string parsing as an IP address it returns
exactly that parsed address. -/
theorem C5_n_upnp_first_element (parse_ip : String → Option IpAddr)
    (object : List (String × JValue)) (rest rest' : List (List (String × JValue)))
    (s : String) (addr : IpAddr) :
    discover_hue_bridge_n_upnp parse_ip []
        = .error (HueError.DiscoveryError "expected non-empty array")
    ∧ discover_hue_bridge_n_upnp parse_ip (object :: rest)
        = discover_hue_bridge_n_upnp parse_ip (object :: rest')
    ∧ (mapGet object "internalipaddress" = none →
        discover_hue_bridge_n_upnp parse_ip (object :: rest)
          = .error (HueError.DiscoveryError "Expected internalipaddress"))
    ∧ (∀ v, mapGet object "internalipaddress" = some v → v.as_str = none →
        discover_hue_bridge_n_upnp parse_ip (object :: rest)
          = .error (HueError.DiscoveryError "expect a string in internalipaddress"))
    ∧ (∀ v, mapGet object "internalipaddress" = some v → v.as_str = some s →
        parse_ip s = none →
        discover_hue_bridge_n_upnp parse_ip (object :: rest)
          = .error (HueError.AddrParseError s))
    ∧ (∀ v, mapGet object "internalipaddress" = some v → v.as_str = some s →
        parse_ip s = some addr →
        discover_hue_bridge_n_upnp parse_ip (object :: rest) = .ok addr) := by
  refine ⟨rfl, by simp [discover_hue_bridge_n_upnp], ?_, ?_, ?_, ?_⟩
  · intro h
    simp [discover_hue_bridge_n_upnp, h]
  · intro v h hs
    simp [discover_hue_bridge_n_upnp, h, hs]
  · intro v h hs hp
    simp [discover_hue_bridge_n_upnp, h, hs, hp]
  · intro v h hs hp
    simp [discover_hue_bridge_n_upnp, h, hs, hp]

/-- Witness for C5 (amended) on a concrete singleton object whose
`internalipaddress` parses. -/
theorem C5_n_upnp_first_element_witness :
    discover_hue_bridge_n_upnp
        (fun s => if s = "192.168.1.9" then some (IpAddr.V4 (Ipv4Addr.mk 192 168 1 9)) else none)
        ([("internalipaddress", JValue.str "192.168.1.9")] :: [])
      = .ok (IpAddr.V4 (Ipv4Addr.mk 192 168 1 9)) :=
  (C5_n_upnp_first_element
      (fun s => if s = "192.168.1.9" then some (IpAddr.V4 (Ipv4Addr.mk 192 168 1 9)) else none)
      [("internalipaddress", JValue.str "192.168.1.9")] [] []
      "192.168.1.9" (IpAddr.V4 (Ipv4Addr.mk 192 168 1 9))).2.2.2.2.2
    (JValue.str "192.168.1.9") rfl rfl (by simp)

/-- `ResourceIdentifier` from `resource.rs`. -/
structure ResourceIdentifier where
  rid : String
  rtype : String
deriving DecidableEq, Repr

/-- `LightMetadata` from `resource.rs`. -/
structure LightMetadata where
  name : Option String
  archetype : Option String
  fixed_mired : Option Nat
  function : Option String
deriving DecidableEq, Repr

/-- `On` from `resource.rs`. -/
structure On where
  «on» : Bool
deriving DecidableEq, Repr

/-- `Dimming` from `resource.rs` (`f32` as `Rat`). -/
structure Dimming where
  brightness : Rat
  min_dim_level : Option Rat
deriving DecidableEq, Repr

/-- `MirekSchema` from `resource.rs`. -/
structure MirekSchema where
  mirek_minimum : Nat
  mirek_maximum : Nat
deriving DecidableEq, Repr

/-- `ColorTemperature` from `resource.rs`. -/
structure ColorTemperature where
  mirek : Option Nat
  mirek_valid : Option Bool
  mirek_schema : Option MirekSchema
deriving DecidableEq, Repr

/-- `XY` from `resource.rs` (`f32` as `Rat`). -/
structure XY where
  x : Rat
  y : Rat
deriving DecidableEq, Repr

/-- `Gamut` from `resource.rs`. -/
structure Gamut where
  red : XY
  green : XY
  blue : XY
deriving DecidableEq, Repr

/-- `Color` from `resource.rs`. -/
structure Color where
  xy : Option XY
  gamut : Option Gamut
deriving DecidableEq, Repr

/-- `Light` from `resource.rs`. -/
structure Light where
  id : String
  id_v1 : Option String
  owner : Option ResourceIdentifier
  metadata : Option LightMetadata
  product_data : Option LightMetadata
  service_id : Option Nat
  «on» : Option On
  dimming : Option Dimming
  color_temperature : Option ColorTemperature
  color : Option Color
deriving DecidableEq, Repr

/-- `ProductData` from `resource.rs`. -/
structure ProductData where
  model_id : Option String
  manufacturer_name : Option String
  product_name : Option String
  product_archetype : Option String
deriving DecidableEq, Repr

/-- `DeviceMetadata` from `resource.rs`. -/
structure DeviceMetadata where
  name : Option String
  archetype : Option String
deriving DecidableEq, Repr

/-- `Device` from `resource.rs`. -/
structure Device where
  id : String
  id_v1 : Option String
  product_data : Option ProductData
  metadata : Option DeviceMetadata
  services : Option (List ResourceIdentifier)
deriving DecidableEq, Repr

/-- `Metadata` from `resource.rs`. -/
structure Metadata where
  name : Option String
  archetype : Option String
deriving DecidableEq, Repr

/-- `Room` from `resource.rs`. -/
structure Room where
  id : String
  id_v1 : Option String
  children : Option (List ResourceIdentifier)
  services : Option (List ResourceIdentifier)
  metadata : Option Metadata
deriving DecidableEq, Repr

/-- `Zone` from `resource.rs`. -/
structure Zone where
  id : String
  id_v1 : Option String
  children : Option (List ResourceIdentifier)
  services : Option (List ResourceIdentifier)
  metadata : Option Metadata
deriving DecidableEq, Repr

/-- `BridgeHome` from `resource.rs`. -/
structure BridgeHome where
  id : String
  id_v1 : Option String
  children : Option (List ResourceIdentifier)
  services : Option (List ResourceIdentifier)
deriving DecidableEq, Repr

/-- `GroupedLight` from `resource.rs`. -/
structure GroupedLight where
  id : String
  id_v1 : Option String
  owner : Option ResourceIdentifier
  «on» : Option On
  dimming : Option Dimming
  color_temperature : Option ColorTemperature
  color : Option Color
deriving DecidableEq, Repr

/-- `SceneMetadata` from `resource.rs`. -/
structure SceneMetadata where
  name : Option String
deriving DecidableEq, Repr

/-- `SceneStatusActive` from `resource.rs`. -/
inductive SceneStatusActive where
  | Inactive
  | Static
  | DynamicPalette
deriving DecidableEq, Repr

/-- `SceneStatus` from `resource.rs`. -/
structure SceneStatus where
  active : Option SceneStatusActive
  last_recall : Option String
deriving DecidableEq, Repr

/-- `Scene` from `resource.rs`. -/
structure Scene where
  id : String
  id_v1 : Option String
  metadata : Option SceneMetadata
  group : Option ResourceIdentifier
  status : Option SceneStatus
deriving DecidableEq, Repr

/-- Modelled from the spec: `SmartScene` is imported by `bridge.rs` from
`resource.rs` but its declaration is absent from the sources; the data model
section describes the resource records as flat records with a stable string
`id` and an optional legacy `id_v1`. -/
structure SmartScene where
  id : String
  id_v1 : Option String
deriving DecidableEq, Repr

/-- `Device::get_lights` from `bridge.rs`: the rids of the device's services
of type light, in service order; `None` when the device has no services
field. -/
def Device.get_lights (self : Device) : Option (List String) :=
  self.services.map (fun services =>
    services.filterMap (fun service =>
      if service.rtype = "light" then some service.rid else none))

/-- `ResolvedRoom` from `bridge.rs`. -/
structure ResolvedRoom where
  id : String
  id_v1 : Option String
  metadata : Option Metadata
  children : List Light
  services : List ResourceIdentifier
deriving DecidableEq, Repr

/-- The pure core of `Bridge::resolve_all_rooms` from `bridge.rs`. The three
fetches are the transport boundary: `indexed_devices` and `indexed_lights`
are the id-keyed indexes built by `index_all_devices` / `index_all_lights`
(key sets distinct, `HashMap::get` modelled by `mapGet`), `rooms` the fetched
room list. `Option::into_iter().flatten()` over `get_lights` is the match on
the option; `map_or(vec![], ...)` is the match on the device lookup. -/
def resolve_all_rooms (indexed_devices : List (String × Device))
    (indexed_lights : List (String × Light)) (rooms : List Room) : List ResolvedRoom :=
  rooms.map (fun room =>
    { metadata := room.metadata
      children :=
        (room.children.map (fun children =>
          children.flatMap (fun child =>
            match mapGet indexed_devices child.rid with
            | none => []
            | some device =>
              (match device.get_lights with
               | none => []
               | some light_ids => light_ids).filterMap
                (fun light_id => mapGet indexed_lights light_id)))).getD []
      id_v1 := room.id_v1
      id := room.id
      services := room.services.getD [] })

/-- The room resolution the spec describes, written from its words: for each
room, for each child reference, look up the child's device in the device
index, enumerate that device's light-type service references, look up each
referenced light in the light index, and flatten, dropping every missing
lookup silently; the other fields are carried over, absent lists as empty. -/
def resolveRoomFromSpec (indexed_devices : List (String × Device))
    (indexed_lights : List (String × Light)) (room : Room) : ResolvedRoom :=
  { id := room.id
    id_v1 := room.id_v1
    metadata := room.metadata
    services := room.services.getD []
    children := (room.children.getD []).flatMap (fun child =>
      match mapGet indexed_devices child.rid with
      | none => []
      | some device =>
        ((device.services.getD []).filterMap (fun service =>
          if service.rtype = "light" then some service.rid else none)).filterMap
          (fun light_id => mapGet indexed_lights light_id)) }

/-- C6: for every device index, light index and room list, the source's room
resolution equals the spec's room-by-room, child-by-child description:
children resolve through the device then its light-type services into the
light index in service order, every missing lookup contributes nothing, and
each room and child is resolved independently of the others. -/
theorem C6_resolve_all_rooms (indexed_devices : List (String × Device))
    (indexed_lights : List (String × Light)) (rooms : List Room) :
    resolve_all_rooms indexed_devices indexed_lights rooms
      = rooms.map (resolveRoomFromSpec indexed_devices indexed_lights) := by
  unfold resolve_all_rooms resolveRoomFromSpec
  apply List.map_congr_left
  intro room _
  cases hch : room.children with
  | none => simp [hch]
  | some children =>
    simp only [hch, Option.map_some, Option.getD_some]
    congr 1
    apply List.flatMap_congr
    intro child _
    cases hdev : mapGet indexed_devices child.rid with
    | none => simp
    | some device =>
      simp only
      cases hs : device.services with
      | none => simp [Device.get_lights, hs]
      | some services => simp [Device.get_lights, hs]

/-- `CommandLightDimming` from `bridge.rs`. -/
structure CommandLightDimming where
  brightness : Rat
deriving DecidableEq, Repr

/-- `CommandLightColorTemperature` from `bridge.rs`. -/
structure CommandLightColorTemperature where
  mirek : Nat
deriving DecidableEq, Repr

/-- `CommandLightColor` from `bridge.rs`. -/
structure CommandLightColor where
  xy : XY
deriving DecidableEq, Repr

/-- `CommandLightDynamics` from `bridge.rs`; both fields carry
`skip_serializing_if = "Option::is_none"`. -/
structure CommandLightDynamics where
  duration : Option Nat
  speed : Option Rat
deriving DecidableEq, Repr

/-- `Default` for `CommandLightDynamics`: all fields `None`. -/
def CommandLightDynamics.default : CommandLightDynamics :=
  { duration := none, speed := none }

/-- `CommandLight` from `bridge.rs`; every field carries
`skip_serializing_if = "Option::is_none"`. -/
structure CommandLight where
  «on» : Option On
  dimming : Option CommandLightDimming
  color_temperature : Option CommandLightColorTemperature
  color : Option CommandLightColor
  dynamics : Option CommandLightDynamics
deriving DecidableEq, Repr

/-- `Default` for `CommandLight`: all fields `None`. -/
def CommandLight.default : CommandLight :=
  { «on» := none, dimming := none, color_temperature := none,
    color := none, dynamics := none }

/-- `CommandLight::on` from `bridge.rs` (named `turn_on` here because the
field projection already takes the name `on`). -/
def CommandLight.turn_on (self : CommandLight) : CommandLight :=
  { self with «on» := some (On.mk true) }

/-- `CommandLight::off` from `bridge.rs`. -/
def CommandLight.turn_off (self : CommandLight) : CommandLight :=
  { self with «on» := some (On.mk false) }

/-- `CommandLight::with_brightness` from `bridge.rs`. -/
def CommandLight.with_brightness (self : CommandLight) (brightness : Rat) : CommandLight :=
  { self with dimming := some (CommandLightDimming.mk brightness) }

/-- `CommandLight::with_mirek` from `bridge.rs`. -/
def CommandLight.with_mirek (self : CommandLight) (mirek : Nat) : CommandLight :=
  { self with color_temperature := some (CommandLightColorTemperature.mk mirek) }

/-- `CommandLight::with_xy` from `bridge.rs`. -/
def CommandLight.with_xy (self : CommandLight) (x y : Rat) : CommandLight :=
  { self with color := some (CommandLightColor.mk (XY.mk x y)) }

/-- `CommandLight::with_transition_time` from `bridge.rs`. -/
def CommandLight.with_transition_time (self : CommandLight) (ms : Nat) : CommandLight :=
  { self with dynamics := some { CommandLightDynamics.default with duration := some ms } }

/-- Serde serialization of `On` (derive `Serialize`, one plain field). -/
def On.serialize (o : On) : JValue :=
  JValue.obj [("on", JValue.bool o.«on»)]

/-- Serde serialization of `CommandLightDimming`. -/
def CommandLightDimming.serialize (d : CommandLightDimming) : JValue :=
  JValue.obj [("brightness", JValue.num d.brightness)]

/-- Serde serialization of `CommandLightColorTemperature`. -/
def CommandLightColorTemperature.serialize (c : CommandLightColorTemperature) : JValue :=
  JValue.obj [("mirek", JValue.num c.mirek)]

/-- Serde serialization of `XY`. -/
def XY.serialize (p : XY) : JValue :=
  JValue.obj [("x", JValue.num p.x), ("y", JValue.num p.y)]

/-- Serde serialization of `CommandLightColor`. -/
def CommandLightColor.serialize (c : CommandLightColor) : JValue :=
  JValue.obj [("xy", c.xy.serialize)]

/-- Serde serialization of `CommandLightDynamics`: each field is emitted only
when set (`skip_serializing_if = "Option::is_none"`), in declaration order. -/
def CommandLightDynamics.serialize (d : CommandLightDynamics) : JValue :=
  JValue.obj
    ((d.duration.toList.map (fun v => ("duration", JValue.num v)))
      ++ (d.speed.toList.map (fun v => ("speed", JValue.num v))))

/-- Serde serialization of `CommandLight` as sent by `set_light_state` /
`set_group_state`: each field is emitted only when set
(`skip_serializing_if = "Option::is_none"`), in declaration order. -/
def CommandLight.serialize (c : CommandLight) : List (String × JValue) :=
  (c.«on».toList.map (fun v => ("on", v.serialize)))
    ++ (c.dimming.toList.map (fun v => ("dimming", v.serialize)))
    ++ (c.color_temperature.toList.map (fun v => ("color_temperature", v.serialize)))
    ++ (c.color.toList.map (fun v => ("color", v.serialize)))
    ++ (c.dynamics.toList.map (fun v => ("dynamics", v.serialize)))

/-- C7: the serialized command payload carries exactly the fields that were
set: each field name appears among the emitted keys exactly when that field
is set, and the command built from the default by setting only `on`
serializes to the single field `on`. -/
theorem C7_command_light_sparse (c : CommandLight) :
    CommandLight.default.turn_on.serialize
        = [("on", JValue.obj [("on", JValue.bool true)])]
    ∧ (("on" ∈ c.serialize.map Prod.fst) ↔ c.«on».isSome)
    ∧ (("dimming" ∈ c.serialize.map Prod.fst) ↔ c.dimming.isSome)
    ∧ (("color_temperature" ∈ c.serialize.map Prod.fst) ↔ c.color_temperature.isSome)
    ∧ (("color" ∈ c.serialize.map Prod.fst) ↔ c.color.isSome)
    ∧ (("dynamics" ∈ c.serialize.map Prod.fst) ↔ c.dynamics.isSome) := by
  obtain ⟨o, d, ct, col, dyn⟩ := c
  refine ⟨rfl, ?_, ?_, ?_, ?_, ?_⟩ <;>
    cases o <;> cases d <;> cases ct <;> cases col <;> cases dyn <;>
      simp [CommandLight.serialize]

/-- `EventData` from `bridge.rs`: internally tagged by `type` with
`rename_all = "snake_case"`, and a `#[serde(other)]` `Unknown` variant for
forward compatibility. -/
inductive EventData where
  | BridgeHome (b : BridgeHome)
  | Device (d : Device)
  | GroupedLight (g : GroupedLight)
  | Light (l : Light)
  | Room (r : Room)
  | Scene (s : Scene)
  | SmartScene (s : SmartScene)
  | Zone (z : Zone)
  | Unknown
deriving DecidableEq, Repr

/-- `EventType` from `bridge.rs` (`rename_all = "lowercase"`). -/
inductive EventType where
  | Update
  | Add
  | Delete
  | Error
  | Unknown
deriving DecidableEq, Repr

/-- `Event` from `bridge.rs`: `{ data: Vec<EventData>, type: EventType }`. -/
structure Event where
  data : List EventData
  type : EventType
deriving DecidableEq, Repr

/-- `HueEvent` from `bridge.rs`. -/
inductive HueEvent where
  | Events (events : List Event)
  | Error (msg : String)
deriving DecidableEq, Repr

/-- One item of the `reqwest_eventsource` feed as matched by `Bridge::events`
(its transport boundary): the `Open` connection signal, a message with its
body text, or a stream-level error already formatted by `format!`. -/
inductive EventSourceItem where
  | connectionOpen
  | message (data : String)
  | streamError (msg : String)
deriving DecidableEq, Repr

/-- The closure `Bridge::events` passes to `filter_map`, translated from
`bridge.rs`. `parse_events` is the `serde_json::from_str::<Vec<Event>>`
boundary; its `error` carries the `format!`-rendered decode failure. -/
def processEvent (parse_events : String → Except String (List Event)) :
    EventSourceItem → Option HueEvent
  | .message data =>
    match parse_events data with
    | .ok event => some (HueEvent.Events event)
    | .error e => some (HueEvent.Error e)
  | .connectionOpen => none
  | .streamError e => some (HueEvent.Error e)

/-- The event stream produced by `Bridge::events`: the item-by-item
`filter_map` of `processEvent` over the feed (a finite prefix of the
infinite feed). -/
def eventsStream (parse_events : String → Except String (List Event))
    (items : List EventSourceItem) : List HueEvent :=
  items.filterMap (processEvent parse_events)

/-- C8: a message whose body does not decode as a list of events contributes
exactly one error event carrying the formatted decode failure, and the rest
of the feed is decoded exactly as it would be without that message; the
`Open` connection signal contributes no event at all. -/
theorem C8_decode_failure_keeps_feed (parse_events : String → Except String (List Event))
    (s e : String) (items : List EventSourceItem)
    (hfail : parse_events s = .error e) :
    eventsStream parse_events (EventSourceItem.message s :: items)
        = HueEvent.Error e :: eventsStream parse_events items
    ∧ eventsStream parse_events (EventSourceItem.connectionOpen :: items)
        = eventsStream parse_events items := by
  constructor
  · rw [eventsStream, List.filterMap_cons]
    simp [processEvent, hfail, eventsStream]
  · rw [eventsStream, List.filterMap_cons]
    simp [processEvent, eventsStream]

/-- Witness for C8: a parser rejecting the body "nonsense" produces one error
event and leaves the decoding of a following well-formed message intact. -/
theorem C8_decode_failure_keeps_feed_witness :
    eventsStream (fun s => if s = "[]" then .ok [] else .error "expected value")
        (EventSourceItem.message "nonsense" :: [EventSourceItem.message "[]"])
      = HueEvent.Error "expected value"
          :: eventsStream (fun s => if s = "[]" then .ok [] else .error "expected value")
              [EventSourceItem.message "[]"]
    ∧ eventsStream (fun s => if s = "[]" then .ok [] else .error "expected value")
        (EventSourceItem.connectionOpen :: [EventSourceItem.message "[]"])
      = eventsStream (fun s => if s = "[]" then .ok [] else .error "expected value")
          [EventSourceItem.message "[]"] :=
  C8_decode_failure_keeps_feed
    (fun s => if s = "[]" then .ok [] else .error "expected value")
    "nonsense" "expected value" [EventSourceItem.message "[]"] (by simp)

/-- Serde boundary: a JSON value deserialized as a map. -/
def JValue.asObjE : JValue → Except String (List (String × JValue))
  | .obj fields => .ok fields
  | _ => .error "invalid type: expected a map"

/-- Serde boundary: deserialize a `String`. -/
def decodeString : JValue → Except String String
  | .str s => .ok s
  | _ => .error "invalid type: expected a string"

/-- Serde boundary: deserialize a `bool`. -/
def decodeBool : JValue → Except String Bool
  | .bool b => .ok b
  | _ => .error "invalid type: expected a boolean"

/-- Serde boundary: deserialize an `f32` (carried as `Rat`). -/
def decodeRat : JValue → Except String Rat
  | .num q => .ok q
  | _ => .error "invalid type: expected a number"

/-- Serde boundary: deserialize an unsigned integer (`u16`/`u32`). -/
def decodeNat : JValue → Except String Nat
  | .num q =>
      if q.den = 1 ∧ 0 ≤ q.num then .ok q.num.toNat
      else .error "invalid value: expected an unsigned integer"
  | _ => .error "invalid type: expected a number"

/-- Serde derive semantics for a required struct field. -/
def reqField {α : Type} (dec : JValue → Except String α)
    (fields : List (String × JValue)) (key : String) : Except String α :=
  match mapGet fields key with
  | some v => dec v
  | none => .error ("missing field " ++ key)

/-- Serde derive semantics for an `Option` struct field: a missing key and an
explicit `null` both decode to `None`. -/
def optField {α : Type} (dec : JValue → Except String α)
    (fields : List (String × JValue)) (key : String) : Except String (Option α) :=
  match mapGet fields key with
  | none => .ok none
  | some JValue.null => .ok none
  | some v => Except.map some (dec v)

/-- Serde derive semantics for a `Vec` value. -/
def decodeListWith {α : Type} (dec : JValue → Except String α) :
    JValue → Except String (List α)
  | .arr xs => xs.mapM dec
  | _ => .error "invalid type: expected a sequence"

/-- Serde `Deserialize` for `ResourceIdentifier` from `resource.rs`. -/
def decodeResourceIdentifier (j : JValue) : Except String ResourceIdentifier := do
  let fields ← j.asObjE
  let rid ← reqField decodeString fields "rid"
  let rtype ← reqField decodeString fields "rtype"
  pure { rid := rid, rtype := rtype }

/-- Serde `Deserialize` for `LightMetadata` from `resource.rs`. -/
def decodeLightMetadata (j : JValue) : Except String LightMetadata := do
  let fields ← j.asObjE
  let name ← optField decodeString fields "name"
  let archetype ← optField decodeString fields "archetype"
  let fixed_mired ← optField decodeNat fields "fixed_mired"
  let function ← optField decodeString fields "function"
  pure { name := name, archetype := archetype, fixed_mired := fixed_mired,
         function := function }

/-- Serde `Deserialize` for `On` from `resource.rs`. -/
def decodeOn (j : JValue) : Except String On := do
  let fields ← j.asObjE
  let o ← reqField decodeBool fields "on"
  pure { «on» := o }

/-- Serde `Deserialize` for `Dimming` from `resource.rs`. -/
def decodeDimming (j : JValue) : Except String Dimming := do
  let fields ← j.asObjE
  let brightness ← reqField decodeRat fields "brightness"
  let min_dim_level ← optField decodeRat fields "min_dim_level"
  pure { brightness := brightness, min_dim_level := min_dim_level }

/-- Serde `Deserialize` for `MirekSchema` from `resource.rs`. -/
def decodeMirekSchema (j : JValue) : Except String MirekSchema := do
  let fields ← j.asObjE
  let mirek_minimum ← reqField decodeNat fields "mirek_minimum"
  let mirek_maximum ← reqField decodeNat fields "mirek_maximum"
  pure { mirek_minimum := mirek_minimum, mirek_maximum := mirek_maximum }

/-- Serde `Deserialize` for `ColorTemperature` from `resource.rs`. -/
def decodeColorTemperature (j : JValue) : Except String ColorTemperature := do
  let fields ← j.asObjE
  let mirek ← optField decodeNat fields "mirek"
  let mirek_valid ← optField decodeBool fields "mirek_valid"
  let mirek_schema ← optField decodeMirekSchema fields "mirek_schema"
  pure { mirek := mirek, mirek_valid := mirek_valid, mirek_schema := mirek_schema }

/-- Serde `Deserialize` for `XY` from `resource.rs`. -/
def decodeXY (j : JValue) : Except String XY := do
  let fields ← j.asObjE
  let x ← reqField decodeRat fields "x"
  let y ← reqField decodeRat fields "y"
  pure { x := x, y := y }

/-- Serde `Deserialize` for `Gamut` from `resource.rs`. -/
def decodeGamut (j : JValue) : Except String Gamut := do
  let fields ← j.asObjE
  let red ← reqField decodeXY fields "red"
  let green ← reqField decodeXY fields "green"
  let blue ← reqField decodeXY fields "blue"
  pure { red := red, green := green, blue := blue }

/-- Serde `Deserialize` for `Color` from `resource.rs`. -/
def decodeColor (j : JValue) : Except String Color := do
  let fields ← j.asObjE
  let xy ← optField decodeXY fields "xy"
  let gamut ← optField decodeGamut fields "gamut"
  pure { xy := xy, gamut := gamut }

/-- Serde `Deserialize` for `Light` from `resource.rs`. -/
def decodeLight (j : JValue) : Except String Light := do
  let fields ← j.asObjE
  let id ← reqField decodeString fields "id"
  let id_v1 ← optField decodeString fields "id_v1"
  let owner ← optField decodeResourceIdentifier fields "owner"
  let metadata ← optField decodeLightMetadata fields "metadata"
  let product_data ← optField decodeLightMetadata fields "product_data"
  let service_id ← optField decodeNat fields "service_id"
  let o ← optField decodeOn fields "on"
  let dimming ← optField decodeDimming fields "dimming"
  let color_temperature ← optField decodeColorTemperature fields "color_temperature"
  let color ← optField decodeColor fields "color"
  pure { id := id, id_v1 := id_v1, owner := owner, metadata := metadata,
         product_data := product_data, service_id := service_id, «on» := o,
         dimming := dimming, color_temperature := color_temperature, color := color }

/-- Serde `Deserialize` for `ProductData` from `resource.rs`. -/
def decodeProductData (j : JValue) : Except String ProductData := do
  let fields ← j.asObjE
  let model_id ← optField decodeString fields "model_id"
  let manufacturer_name ← optField decodeString fields "manufacturer_name"
  let product_name ← optField decodeString fields "product_name"
  let product_archetype ← optField decodeString fields "product_archetype"
  pure { model_id := model_id, manufacturer_name := manufacturer_name,
         product_name := product_name, product_archetype := product_archetype }

/-- Serde `Deserialize` for `DeviceMetadata` from `resource.rs`. -/
def decodeDeviceMetadata (j : JValue) : Except String DeviceMetadata := do
  let fields ← j.asObjE
  let name ← optField decodeString fields "name"
  let archetype ← optField decodeString fields "archetype"
  pure { name := name, archetype := archetype }

/-- Serde `Deserialize` for `Device` from `resource.rs`. -/
def decodeDevice (j : JValue) : Except String Device := do
  let fields ← j.asObjE
  let id ← reqField decodeString fields "id"
  let id_v1 ← optField decodeString fields "id_v1"
  let product_data ← optField decodeProductData fields "product_data"
  let metadata ← optField decodeDeviceMetadata fields "metadata"
  let services ← optField (decodeListWith decodeResourceIdentifier) fields "services"
  pure { id := id, id_v1 := id_v1, product_data := product_data,
         metadata := metadata, services := services }

/-- Serde `Deserialize` for `Metadata` from `resource.rs`. -/
def decodeMetadata (j : JValue) : Except String Metadata := do
  let fields ← j.asObjE
  let name ← optField decodeString fields "name"
  let archetype ← optField decodeString fields "archetype"
  pure { name := name, archetype := archetype }

/-- Serde `Deserialize` for `Room` from `resource.rs`. -/
def decodeRoom (j : JValue) : Except String Room := do
  let fields ← j.asObjE
  let id ← reqField decodeString fields "id"
  let id_v1 ← optField decodeString fields "id_v1"
  let children ← optField (decodeListWith decodeResourceIdentifier) fields "children"
  let services ← optField (decodeListWith decodeResourceIdentifier) fields "services"
  let metadata ← optField decodeMetadata fields "metadata"
  pure { id := id, id_v1 := id_v1, children := children, services := services,
         metadata := metadata }

/-- Serde `Deserialize` for `Zone` from `resource.rs`. -/
def decodeZone (j : JValue) : Except String Zone := do
  let fields ← j.asObjE
  let id ← reqField decodeString fields "id"
  let id_v1 ← optField decodeString fields "id_v1"
  let children ← optField (decodeListWith decodeResourceIdentifier) fields "children"
  let services ← optField (decodeListWith decodeResourceIdentifier) fields "services"
  let metadata ← optField decodeMetadata fields "metadata"
  pure { id := id, id_v1 := id_v1, children := children, services := services,
         metadata := metadata }

/-- Serde `Deserialize` for `BridgeHome` from `resource.rs`. -/
def decodeBridgeHome (j : JValue) : Except String BridgeHome := do
  let fields ← j.asObjE
  let id ← reqField decodeString fields "id"
  let id_v1 ← optField decodeString fields "id_v1"
  let children ← optField (decodeListWith decodeResourceIdentifier) fields "children"
  let services ← optField (decodeListWith decodeResourceIdentifier) fields "services"
  pure { id := id, id_v1 := id_v1, children := children, services := services }

/-- Serde `Deserialize` for `GroupedLight` from `resource.rs`. -/
def decodeGroupedLight (j : JValue) : Except String GroupedLight := do
  let fields ← j.asObjE
  let id ← reqField decodeString fields "id"
  let id_v1 ← optField decodeString fields "id_v1"
  let owner ← optField decodeResourceIdentifier fields "owner"
  let o ← optField decodeOn fields "on"
  let dimming ← optField decodeDimming fields "dimming"
  let color_temperature ← optField decodeColorTemperature fields "color_temperature"
  let color ← optField decodeColor fields "color"
  pure { id := id, id_v1 := id_v1, owner := owner, «on» := o, dimming := dimming,
         color_temperature := color_temperature, color := color }

/-- Serde `Deserialize` for `SceneMetadata` from `resource.rs`. -/
def decodeSceneMetadata (j : JValue) : Except String SceneMetadata := do
  let fields ← j.asObjE
  let name ← optField decodeString fields "name"
  pure { name := name }

/-- Serde `Deserialize` for `SceneStatusActive` from `resource.rs`
(`rename_all = "snake_case"`). -/
def decodeSceneStatusActive : JValue → Except String SceneStatusActive
  | .str "inactive" => .ok SceneStatusActive.Inactive
  | .str "static" => .ok SceneStatusActive.Static
  | .str "dynamic_palette" => .ok SceneStatusActive.DynamicPalette
  | .str _ => .error "unknown variant"
  | _ => .error "invalid type: expected a string"

/-- Serde `Deserialize` for `SceneStatus` from `resource.rs`. -/
def decodeSceneStatus (j : JValue) : Except String SceneStatus := do
  let fields ← j.asObjE
  let active ← optField decodeSceneStatusActive fields "active"
  let last_recall ← optField decodeString fields "last_recall"
  pure { active := active, last_recall := last_recall }

/-- Serde `Deserialize` for `Scene` from `resource.rs`. -/
def decodeScene (j : JValue) : Except String Scene := do
  let fields ← j.asObjE
  let id ← reqField decodeString fields "id"
  let id_v1 ← optField decodeString fields "id_v1"
  let metadata ← optField decodeSceneMetadata fields "metadata"
  let group ← optField decodeResourceIdentifier fields "group"
  let status ← optField decodeSceneStatus fields "status"
  pure { id := id, id_v1 := id_v1, metadata := metadata, group := group,
         status := status }

/-- Modelled from the spec: serde `Deserialize` for the `SmartScene` record
whose declaration is absent from the sources (flat record, string `id`,
optional `id_v1`). -/
def decodeSmartScene (j : JValue) : Except String SmartScene := do
  let fields ← j.asObjE
  let id ← reqField decodeString fields "id"
  let id_v1 ← optField decodeString fields "id_v1"
  pure { id := id, id_v1 := id_v1 }

/-- The `type` tags the `EventData` derive recognizes
(variant names under `rename_all = "snake_case"`). -/
def knownEventTags : List String :=
  ["bridge_home", "device", "grouped_light", "light", "room", "scene",
   "smart_scene", "zone"]

/-- Serde `Deserialize` for `EventData` from `bridge.rs`: internally tagged
by the `type` field; a recognized tag decodes the object as that variant's
payload (the tag key itself being ignored by the payload decoders); any
unrecognized tag is the `#[serde(other)]` `Unknown` variant; a missing or
non-string tag is a decode error. -/
def decodeEventData (j : JValue) : Except String EventData := do
  let fields ← j.asObjE
  match mapGet fields "type" with
  | some (JValue.str tag) =>
    if tag = "bridge_home" then Except.map EventData.BridgeHome (decodeBridgeHome j)
    else if tag = "device" then Except.map EventData.Device (decodeDevice j)
    else if tag = "grouped_light" then Except.map EventData.GroupedLight (decodeGroupedLight j)
    else if tag = "light" then Except.map EventData.Light (decodeLight j)
    else if tag = "room" then Except.map EventData.Room (decodeRoom j)
    else if tag = "scene" then Except.map EventData.Scene (decodeScene j)
    else if tag = "smart_scene" then Except.map EventData.SmartScene (decodeSmartScene j)
    else if tag = "zone" then Except.map EventData.Zone (decodeZone j)
    else pure EventData.Unknown
  | some _ => .error "invalid type: tag is not a string"
  | none => .error "missing field type"

/-- Serde `Deserialize` for `EventType` from `bridge.rs`
(`rename_all = "lowercase"`). -/
def decodeEventType : JValue → Except String EventType
  | .str "update" => .ok EventType.Update
  | .str "add" => .ok EventType.Add
  | .str "delete" => .ok EventType.Delete
  | .str "error" => .ok EventType.Error
  | .str "unknown" => .ok EventType.Unknown
  | .str _ => .error "unknown variant"
  | _ => .error "invalid type: expected a string"

/-- Serde `Deserialize` for `Event` from `bridge.rs`. -/
def decodeEvent (j : JValue) : Except String Event := do
  let fields ← j.asObjE
  let data ← reqField (decodeListWith decodeEventData) fields "data"
  let type ← reqField decodeEventType fields "type"
  pure { data := data, type := type }

/-- The `serde_json::from_str::<Vec<Event>>` decode of a message body after
the text has been read as a JSON value. -/
def decodeEvents (j : JValue) : Except String (List Event) :=
  decodeListWith decodeEvent j

/-- C9: a payload element whose `type` tag is a string that is none of the
known resource tags decodes to the `Unknown` variant, so a payload list of
one successfully decoding element followed by one unknown-tagged element
decodes as a whole to the two-element batch ending in `Unknown` instead of
failing. -/
theorem C9_unknown_variant (fields : List (String × JValue)) (t : String)
    (j1 : JValue) (d : EventData)
    (htag : mapGet fields "type" = some (JValue.str t))
    (hunk : t ∉ knownEventTags)
    (h1 : decodeEventData j1 = .ok d) :
    decodeEventData (JValue.obj fields) = .ok EventData.Unknown
    ∧ decodeListWith decodeEventData (JValue.arr [j1, JValue.obj fields])
        = .ok [d, EventData.Unknown] := by
  have hfirst : decodeEventData (JValue.obj fields) = .ok EventData.Unknown := by
    simp only [knownEventTags, List.mem_cons, List.not_mem_nil, or_false, not_or] at hunk
    obtain ⟨u1, u2, u3, u4, u5, u6, u7, u8⟩ := hunk
    simp [decodeEventData, JValue.asObjE, Bind.bind, Except.bind, htag,
      u1, u2, u3, u4, u5, u6, u7, u8]
    rfl
  refine ⟨hfirst, ?_⟩
  rw [show decodeListWith decodeEventData (JValue.arr [j1, JValue.obj fields])
      = ([j1, JValue.obj fields].mapM decodeEventData) from rfl,
    List.mapM_cons, List.mapM_cons, List.mapM_nil, h1, hfirst]
  rfl

/-- Witness for C9: one `bridge_home`-tagged object and one object tagged
with the unrecognized tag "portal" decode to a batch of two events, the
second `Unknown`. -/
theorem C9_unknown_variant_witness :
    decodeEventData (JValue.obj [("type", JValue.str "portal")])
        = .ok EventData.Unknown
    ∧ decodeListWith decodeEventData
        (JValue.arr [JValue.obj [("type", JValue.str "bridge_home"),
                                 ("id", JValue.str "bh1")],
                     JValue.obj [("type", JValue.str "portal")]])
        = .ok [EventData.BridgeHome (BridgeHome.mk "bh1" none none none),
               EventData.Unknown] :=
  C9_unknown_variant [("type", JValue.str "portal")] "portal"
    (JValue.obj [("type", JValue.str "bridge_home"), ("id", JValue.str "bh1")])
    (EventData.BridgeHome (BridgeHome.mk "bh1" none none none))
    rfl (by decide) rfl
